import Mathlib

/-!
Shallow embedding of `src/app.py` (azure-cost-monitor): a Flask service that
fetches Azure month-to-date cost, compares it against a threshold, optionally
sends an email alert, and returns a JSON status payload.

Modelling conventions:
* Python floats are modelled as rationals (`ℚ`); none of the verified
  properties depend on binary rounding of IEEE doubles.
* Environment strings (`os.environ.get`) are `Option String`; Python
  truthiness of such a value (`not SUBSCRIPTION_ID`) is false exactly for
  `none` and the empty string.
* The Azure client construction (lines 38-48) either succeeds or leaves
  `cost_client = None`; we model the resulting state as a `Bool`
  (`cost_client = true` iff the client object exists and is truthy).
* Network effects are modelled by passing the outcome of the external call
  as an argument: the billing query is a function from the query time
  period to `Except String rows` (an `Except.error e` is a raised exception
  with message `e`), and the SMTP session is an `Except String Unit`.
  Each modelled operation additionally reports whether it reached the
  network call, so "no network call is made" is a provable proposition.
* The wall clock is a `Clock` carrying the UTC instant (seconds since the
  Unix epoch) and the local-timezone offset; Python's `datetime.now()`
  reads the local clock (utc + offset) and `datetime.utcnow()` the UTC one.
-/

/-- A dynamically-typed cell of an Azure query result row
(`result.rows[i][j]` in the source): either a number or a string. -/
inductive PyVal where
  | num (q : ℚ)
  | str (s : String)
deriving DecidableEq

/-- Python truthiness of an optional environment string: `None` and `""`
are falsy, every other string is truthy. -/
def strTruthy : Option String → Bool
  | none => false
  | some s => !s.isEmpty

/-- Python f-string interpolation of an optional environment string:
`None` renders as `"None"`. -/
def pyShow : Option String → String
  | none => "None"
  | some s => s

/-- Process configuration loaded from the environment at startup
(lines 25-33).  `TENANT_ID`/`CLIENT_ID`/`CLIENT_SECRET` feed only the
credential construction, which we summarise by the `cost_client : Bool`
argument of the operations below. -/
structure Config where
  SUBSCRIPTION_ID : Option String
  EMAIL_SENDER : Option String
  EMAIL_PASSWORD : Option String
  EMAIL_RECEIVER : Option String
  THRESHOLD : ℚ
deriving DecidableEq

/- ### Dates and the wall clock (for `datetime.now()`, `timedelta(days=1)`,
`date.isoformat()`) -/

/-- A calendar date, as produced by `datetime.date`. -/
structure Date where
  year : Int
  month : Nat
  day : Nat
deriving DecidableEq

/-- Gregorian leap-year test. -/
def isLeap (y : Int) : Bool :=
  (y % 4 == 0 && y % 100 != 0) || (y % 400 == 0)

/-- Number of days in a month of a given year. -/
def daysInMonth (y : Int) (m : Nat) : Nat :=
  if m == 2 then (if isLeap y then 29 else 28)
  else if m == 4 || m == 6 || m == 9 || m == 11 then 30
  else 31

/-- `date + timedelta(days=1)`: the next calendar day. -/
def nextDay (d : Date) : Date :=
  if d.day < daysInMonth d.year d.month then ⟨d.year, d.month, d.day + 1⟩
  else if d.month < 12 then ⟨d.year, d.month + 1, 1⟩
  else ⟨d.year + 1, 1, 1⟩

/-- Civil date from a count of days since 1970-01-01 (proleptic Gregorian
calendar; Euclidean `/` on `Int` is floor division for positive divisors,
matching the arithmetic of `datetime`). -/
def civilFromDays (z0 : Int) : Date :=
  let z := z0 + 719468
  let era := z / 146097
  let doe := z - era * 146097
  let yoe := (doe - doe / 1460 + doe / 36524 - doe / 146096) / 365
  let doy := doe - (365 * yoe + yoe / 4 - yoe / 100)
  let mp := (5 * doy + 2) / 153
  let d := doy - (153 * mp + 2) / 5 + 1
  let m := if mp < 10 then mp + 3 else mp - 9
  ⟨(if m ≤ 2 then yoe + era * 400 + 1 else yoe + era * 400), m.toNat, d.toNat⟩

/-- The ambient wall clock at the moment of a request: the UTC instant in
seconds since the Unix epoch, and the local timezone's offset from UTC in
seconds (`datetime.now()` reads `utcSeconds + tzOffsetSeconds`). -/
structure Clock where
  utcSeconds : Int
  tzOffsetSeconds : Int
deriving DecidableEq

/-- Calendar date of an instant given in seconds since the epoch. -/
def dateOfSeconds (s : Int) : Date :=
  civilFromDays (s / 86400)

/-- `datetime.now().date()`: the local calendar date at the clock reading. -/
def localDate (c : Clock) : Date :=
  dateOfSeconds (c.utcSeconds + c.tzOffsetSeconds)

/-- `datetime.utcnow().date()`: the UTC calendar date at the clock reading. -/
def utcDate (c : Clock) : Date :=
  dateOfSeconds c.utcSeconds

/-- Zero-pad a number below 100 to two digits. -/
def pad2 (n : Nat) : String :=
  if n < 10 then "0" ++ toString n else toString n

/-- Zero-pad a year to four digits (`date.isoformat` year field). -/
def pad4 (n : Int) : String :=
  let s := toString n.toNat
  if s.length ≥ 4 then s else String.mk (List.replicate (4 - s.length) '0') ++ s

/-- `date.isoformat()`: `YYYY-MM-DD`. -/
def Date.isoformat (d : Date) : String :=
  pad4 d.year ++ "-" ++ pad2 d.month ++ "-" ++ pad2 d.day

/-- `datetime.utcnow().isoformat()`, modelled at second granularity:
`YYYY-MM-DDTHH:MM:SS`. -/
def utcnow_isoformat (c : Clock) : String :=
  let sod := (c.utcSeconds % 86400).toNat
  (utcDate c).isoformat ++ "T" ++ pad2 (sod / 3600) ++ ":" ++
    pad2 (sod % 3600 / 60) ++ ":" ++ pad2 (sod % 60)

/- ### Python float formatting (`f"{x:.2f}"`) and coercion (`float(x)`) -/

/-- Round the fraction `n / d` (with `d > 0`) to the nearest integer, ties
to even (the rounding used by Python's fixed-point float formatting).
Euclidean `/` and `%` on `Int` give floor division and a remainder in
`[0, d)` for positive `d`, so `fl` is the floor and `r2 < d` / `r2 > d` /
`r2 = d` distinguish a fractional part below, above, or at one half. -/
def roundHalfEvenInt (n d : Int) : Int :=
  let fl := n / d
  let r2 := n % d * 2
  if r2 < d then fl
  else if r2 > d then fl + 1
  else if fl % 2 = 0 then fl else fl + 1

/-- Python `f"{x:.2f}"`: fixed-point rendering of `q` with two fractional
digits, i.e. `q * 100` rounded half-even.  The rounding is computed on the
numerator and denominator directly (rounding `(q.num * 100) / q.den` needs
no reduction of the fraction), keeping the definition kernel-reducible:
the rational operations of the library are `@[irreducible]`. -/
def format2 (q : ℚ) : String :=
  let n := roundHalfEvenInt (q.num * 100) (q.den : Int)
  let sign := if n < 0 then "-" else ""
  let m := n.natAbs
  sign ++ toString (m / 100) ++ "." ++ pad2 (m % 100)

/-- Numeric value of a list of decimal digit characters. -/
def natOfDigits (cs : List Char) : ℚ :=
  cs.foldl (fun acc c => acc * 10 + (c.toNat - 48)) 0

/-- Parse a decimal literal the way Python's `float()` accepts
`"12"`, `"12.5"`, `".5"`, `"1."`, with optional sign and surrounding
whitespace (exponent forms are not needed by any verified property). -/
def parseDecimal? (s : String) : Option ℚ :=
  let cs := s.trim.toList
  let signed : ℚ × List Char :=
    match cs with
    | '-' :: rest => (-1, rest)
    | '+' :: rest => (1, rest)
    | _ => (1, cs)
  let intPart := signed.2.takeWhile Char.isDigit
  let rest := signed.2.dropWhile Char.isDigit
  match rest with
  | [] => if intPart.isEmpty then none else some (signed.1 * natOfDigits intPart)
  | '.' :: frac =>
    if frac.all Char.isDigit && !(intPart.isEmpty && frac.isEmpty) then
      some (signed.1 * (natOfDigits intPart + natOfDigits frac / 10 ^ frac.length))
    else none
  | _ => none

/-- Python `float(x)` on a result cell: numbers pass through, strings are
parsed as decimal literals; failure raises (modelled as `Except.error`). -/
def pyFloat : PyVal → Except String ℚ
  | .num q => .ok q
  | .str s =>
    match parseDecimal? s with
    | some q => .ok q
    | none => .error ("could not convert string to float: '" ++ s ++ "'")

/-- Python string interpolation of a result cell (`f"{currency} ..."`):
strings pass through; a numeric cell renders as a decimal (a fidelity level
sufficient here, since no verified property feeds a number through it). -/
def pyStr : PyVal → String
  | .str s => s
  | .num q => if q.den = 1 then toString q.num ++ ".0" else format2 q

/- ### `send_alert` (lines 52-83) -/

/-- Subject line of the alert email (line 59). -/
def alert_subject (cost : ℚ) : String :=
  "🚨 Cost Anomaly Alert! Azure Cost: $" ++ format2 cost

/-- Body of the alert email (lines 63-70). -/
def alert_body (cfg : Config) (cost : ℚ) : String :=
  "\n    The Azure Month-To-Date cost for subscription '" ++
    pyShow cfg.SUBSCRIPTION_ID ++
    "' has exceeded the set threshold.\n    \n    Current Total Cost: $" ++
    format2 cost ++ "\n    Configured Threshold: $" ++ format2 cfg.THRESHOLD ++
    "\n    \n    Action required: Check resource usage and identify cost contributors.\n    "

/-- Result of `send_alert`: the returned boolean, and whether an SMTP
connection was opened (the `with smtplib.SMTP_SSL(...)` block was entered). -/
structure SendResult where
  success : Bool
  attempted : Bool
deriving DecidableEq

/-- `send_alert(cost)` (lines 52-83).  `smtp` is the SMTP session
(login + send) applied to the composed `(subject, body)` message:
`Except.error e` is a raised transport or authentication exception.  If any
of sender, password, receiver is missing (falsy), returns `False` without
touching the network; otherwise the session outcome decides the returned
boolean, and no exception escapes. -/
def send_alert (cfg : Config) (smtp : String × String → Except String Unit)
    (cost : ℚ) : SendResult :=
  if !strTruthy cfg.EMAIL_SENDER || !strTruthy cfg.EMAIL_PASSWORD ||
      !strTruthy cfg.EMAIL_RECEIVER then
    ⟨false, false⟩
  else
    match smtp (alert_subject cost, alert_body cfg cost) with
    | .ok _ => ⟨true, true⟩
    | .error _ => ⟨false, true⟩

/- ### `get_current_cost` (lines 85-131) -/

/-- The `timePeriod` of the query definition (lines 92-101): `today` is the
LOCAL calendar date (`datetime.now().date()`), `first_day_of_month` is
`today.replace(day=1)`, and the bounds are rendered as
`<date>T00:00:00Z`. -/
def query_time_period (c : Clock) : String × String :=
  let today := localDate c
  let first_day_of_month : Date := { today with day := 1 }
  (first_day_of_month.isoformat ++ "T00:00:00Z",
   (nextDay today).isoformat ++ "T00:00:00Z")

/-- Result of `get_current_cost`: the returned `(cost, currency)` pair, and
whether the billing API was actually queried. -/
structure FetchResult where
  total_cost : ℚ
  currency : PyVal
  network_called : Bool
deriving DecidableEq

/-- Parsing of the first result row inside the `try` block (lines 120-123):
`total_cost = float(result.rows[0][0])`, `currency = result.rows[0][1]`.
Either access or the `float` coercion may raise; the raised message is
propagated to the enclosing handler. -/
def parse_first_row (row : List PyVal) : Except String (ℚ × PyVal) :=
  match row with
  | [] => .error "list index out of range"
  | v :: rest =>
    match pyFloat v with
    | .error e => .error e
    | .ok c =>
      match rest.head? with
      | none => .error "list index out of range"
      | some cur => .ok (c, cur)

/-- `get_current_cost()` (lines 85-131).  `cost_client` says whether the
Azure client was constructed at startup; `api` is the external billing
query, receiving the computed `timePeriod` and returning either the result
rows or a raised exception message.  Mirrors the source control flow:
unconfigured → `(0.0, "USD")` with no network call; zero rows or a falsy
first row → `(0.0, "USD")`; a parsable first row → its first two fields;
any exception in the `try` block → `(0.0, "API Error: " + str(e))`.
The function is total: no exception propagates to the caller. -/
def get_current_cost (cfg : Config) (cost_client : Bool) (clk : Clock)
    (api : String × String → Except String (List (List PyVal))) :
    FetchResult :=
  if !cost_client || !strTruthy cfg.SUBSCRIPTION_ID then
    ⟨0, .str "USD", false⟩
  else
    match api (query_time_period clk) with
    | .error e => ⟨0, .str ("API Error: " ++ e), true⟩
    | .ok rows =>
      match rows.head? with
      | none => ⟨0, .str "USD", true⟩
      | some row =>
        if row.isEmpty then ⟨0, .str "USD", true⟩
        else
          match parse_first_row row with
          | .ok (c, cur) => ⟨c, cur, true⟩
          | .error e => ⟨0, .str ("API Error: " ++ e), true⟩

/- ### `home` (lines 135-161) -/

/-- The JSON payload returned by the `/` route (lines 151-161). -/
structure Response where
  status : String
  current_cost_mtd : String
  cost_value : ℚ
  threshold_usd : ℚ
  alert_triggered_now : Bool
  threshold_breached : Bool
  last_checked_utc : String
  scope : String
deriving DecidableEq

/-- Result of one request to `/`: the JSON response, whether `send_alert`
was invoked, and whether an SMTP connection was opened. -/
structure HomeResult where
  response : Response
  send_alert_called : Bool
  smtp_attempted : Bool
deriving DecidableEq

/-- The `home()` request handler (lines 135-161): fetch the cost, compare
it strictly against the threshold, invoke `send_alert` only on a breach,
and assemble the JSON payload. -/
def home (cfg : Config) (cost_client : Bool) (clk : Clock)
    (api : String × String → Except String (List (List PyVal)))
    (smtp : String × String → Except String Unit) : HomeResult :=
  let fr := get_current_cost cfg cost_client clk api
  let cost := fr.total_cost
  let currency := fr.currency
  let threshold_breached := decide (cost > cfg.THRESHOLD)
  let alert :=
    if threshold_breached then
      let r := send_alert cfg smtp cost
      (r.success, true, r.attempted)
    else (false, false, false)
  { response :=
    { status := "Running"
      current_cost_mtd := pyStr currency ++ " " ++ format2 cost
      cost_value := cost
      threshold_usd := cfg.THRESHOLD
      alert_triggered_now := alert.1
      threshold_breached := threshold_breached
      last_checked_utc := utcnow_isoformat clk ++ "Z"
      scope := "Subscription: " ++ pyShow cfg.SUBSCRIPTION_ID }
    send_alert_called := alert.2.1
    smtp_attempted := alert.2.2 }

/- ### Auxiliary definitions for the verified properties -/

/-- Formalisation of claim C7's wording: the query window as computed from
the UTC wall-clock date at call time — from the first calendar day of the
current (UTC) month at 00:00 UTC, inclusive, to tomorrow (the day after
the UTC date) at 00:00 UTC, exclusive. -/
def claimed_time_period (c : Clock) : String × String :=
  let today := utcDate c
  ({ today with day := 1 }.isoformat ++ "T00:00:00Z",
   (nextDay today).isoformat ++ "T00:00:00Z")

/-- The rational 12.34, written in lowest terms (617/50): the arithmetic
operations on `ℚ` are `@[irreducible]`, so concrete values entering
kernel-evaluated statements are given directly in normal form. -/
def q12_34 : ℚ := ⟨617, 50, by decide, by decide⟩

/-- The normal form above denotes 12.34. -/
theorem q12_34_eq : q12_34 = 12.34 := by
  unfold q12_34
  rw [Rat.mk'_eq_divInt, Rat.divInt_eq_div]
  norm_num

/-- A billing API that returns the given rows. -/
def apiWith (rows : List (List PyVal)) :
    String × String → Except String (List (List PyVal)) :=
  fun _ => .ok rows

/-- A billing API whose call raises an exception with message `e`. -/
def apiFail (e : String) :
    String × String → Except String (List (List PyVal)) :=
  fun _ => .error e

/-- An SMTP session that accepts any message. -/
def smtpOk : String × String → Except String Unit :=
  fun _ => .ok ()

/-- An SMTP session that raises an exception with message `e`. -/
def smtpFail (e : String) : String × String → Except String Unit :=
  fun _ => .error e

/-- A fully-populated configuration with the default threshold 5.00. -/
def cfgTest : Config :=
  ⟨some "sub-123", some "sender@example.com", some "pw",
   some "receiver@example.com", 5⟩

/-- A configuration with every email field absent. -/
def cfgNoEmail : Config :=
  ⟨some "sub-123", none, none, none, 5⟩

/-- A fixed clock reading: 1970-01-01T00:30:00Z, process timezone UTC. -/
def clkTest : Clock := ⟨1800, 0⟩

/- ### The verified properties -/

/-- C1: for every cost value returned by the fetch and every configured
threshold, the handler computes the breach flag as `cost > THRESHOLD`
with strict greater-than, so a cost equal to the threshold does not
breach. -/
theorem home_threshold_breached_strict (cfg : Config) (cc : Bool)
    (clk : Clock) (api : String × String → Except String (List (List PyVal)))
    (smtp : String × String → Except String Unit) :
    (home cfg cc clk api smtp).response.threshold_breached
      = decide ((get_current_cost cfg cc clk api).total_cost > cfg.THRESHOLD)
    ∧ ((get_current_cost cfg cc clk api).total_cost = cfg.THRESHOLD →
        (home cfg cc clk api smtp).response.threshold_breached = false) := by
  constructor
  · rfl
  · intro h
    simp [home, h]

/-- Witness for C1 at a concrete input where the fetched cost equals the
threshold: the breach flag is false. -/
theorem home_threshold_breached_strict_witness :
    (get_current_cost cfgTest true clkTest
        (apiWith [[.num 5, .str "USD"]])).total_cost = cfgTest.THRESHOLD
    ∧ (home cfgTest true clkTest (apiWith [[.num 5, .str "USD"]])
        smtpOk).response.threshold_breached = false :=
  ⟨by decide,
   (home_threshold_breached_strict cfgTest true clkTest
      (apiWith [[.num 5, .str "USD"]]) smtpOk).2 (by decide)⟩

/-- C2 counterexample: with the billing client unusable, `get_current_cost`
returns the string `"USD"` in the currency position — precisely the valid
currency code the success paths use, not an "unconfigured"/error marker —
so the claim's "non-currency marker string" is false at this input (the
amount-0.0 and no-network-call parts do hold). -/
theorem get_current_cost_unconfigured_counterexample :
    (get_current_cost cfgTest false clkTest (apiWith [])).currency
        = PyVal.str "USD"
    ∧ (get_current_cost cfgTest false clkTest (apiWith [])).total_cost = 0
    ∧ (get_current_cost cfgTest false clkTest (apiWith [])).network_called
        = false := by
  decide

/-- C2 (amended): whenever the billing client is unusable or the
subscription id is missing (or empty), `get_current_cost` returns amount
0.0 paired with the default currency code `"USD"` — not a distinguishable
error marker — and makes no network call. -/
theorem get_current_cost_unconfigured (cfg : Config) (cc : Bool)
    (clk : Clock) (api : String × String → Except String (List (List PyVal)))
    (h : cc = false ∨ strTruthy cfg.SUBSCRIPTION_ID = false) :
    get_current_cost cfg cc clk api = ⟨0, .str "USD", false⟩ := by
  rcases h with h | h <;> simp [get_current_cost, h]

/-- Witness for the amended C2 at a concrete unconfigured input. -/
theorem get_current_cost_unconfigured_witness :
    (false = false ∨ strTruthy cfgTest.SUBSCRIPTION_ID = false)
    ∧ get_current_cost cfgTest false clkTest (apiWith [])
        = ⟨0, .str "USD", false⟩ :=
  ⟨Or.inl rfl,
   get_current_cost_unconfigured cfgTest false clkTest (apiWith [])
     (Or.inl rfl)⟩

/-- C3: on any request whose breach flag is false, the handler never
invokes `send_alert` and reports `alert_triggered_now = false`. -/
theorem home_no_breach_no_alert (cfg : Config) (cc : Bool) (clk : Clock)
    (api : String × String → Except String (List (List PyVal)))
    (smtp : String × String → Except String Unit)
    (h : (home cfg cc clk api smtp).response.threshold_breached = false) :
    (home cfg cc clk api smtp).send_alert_called = false
    ∧ (home cfg cc clk api smtp).response.alert_triggered_now = false := by
  have hb : decide ((get_current_cost cfg cc clk api).total_cost
      > cfg.THRESHOLD) = false := h
  exact ⟨by simp [home, hb], by simp [home, hb]⟩

/-- Witness for C3 at a concrete input (cost 3.00, threshold 5.00). -/
theorem home_no_breach_no_alert_witness :
    (home cfgTest true clkTest (apiWith [[.num 3, .str "USD"]])
        smtpOk).response.threshold_breached = false
    ∧ ((home cfgTest true clkTest (apiWith [[.num 3, .str "USD"]])
          smtpOk).send_alert_called = false
       ∧ (home cfgTest true clkTest (apiWith [[.num 3, .str "USD"]])
            smtpOk).response.alert_triggered_now = false) :=
  ⟨by decide,
   home_no_breach_no_alert cfgTest true clkTest
     (apiWith [[.num 3, .str "USD"]]) smtpOk (by decide)⟩

/-- C4: every exception raised during the billing-API call is caught and
converted into amount 0.0 with the descriptive error string
`"API Error: " ++ message` in the currency position; the fetch is a total
function, so no exception propagates to its caller. -/
theorem get_current_cost_api_error (cfg : Config) (clk : Clock) (e : String)
    (h : strTruthy cfg.SUBSCRIPTION_ID = true) :
    get_current_cost cfg true clk (apiFail e)
      = ⟨0, .str ("API Error: " ++ e), true⟩ := by
  simp [get_current_cost, apiFail, h]

/-- Witness for C4 at a concrete raised authentication error. -/
theorem get_current_cost_api_error_witness :
    strTruthy cfgTest.SUBSCRIPTION_ID = true
    ∧ get_current_cost cfgTest true clkTest
        (apiFail "AuthenticationRequiredError")
      = ⟨0, .str "API Error: AuthenticationRequiredError", true⟩ :=
  ⟨by decide,
   get_current_cost_api_error cfgTest clkTest
     "AuthenticationRequiredError" (by decide)⟩

/-- C5: if any of the sender address, the sender credential, or the
receiver address is missing (or empty), `send_alert` returns `False`
immediately with no SMTP connection opened; the function is total, so it
never raises. -/
theorem send_alert_missing_config (cfg : Config)
    (smtp : String × String → Except String Unit) (cost : ℚ)
    (h : strTruthy cfg.EMAIL_SENDER = false
      ∨ strTruthy cfg.EMAIL_PASSWORD = false
      ∨ strTruthy cfg.EMAIL_RECEIVER = false) :
    send_alert cfg smtp cost = ⟨false, false⟩ := by
  rcases h with h | h | h <;> simp [send_alert, h]

/-- Witness for C5 with every email field absent. -/
theorem send_alert_missing_config_witness :
    (strTruthy cfgNoEmail.EMAIL_SENDER = false
      ∨ strTruthy cfgNoEmail.EMAIL_PASSWORD = false
      ∨ strTruthy cfgNoEmail.EMAIL_RECEIVER = false)
    ∧ send_alert cfgNoEmail smtpOk 7 = ⟨false, false⟩ :=
  ⟨Or.inl (by decide),
   send_alert_missing_config cfgNoEmail smtpOk 7 (Or.inl (by decide))⟩

/-- C6: if the billing API returns zero result rows, `get_current_cost`
returns `(0.0, "USD")`; combined with any non-negative threshold, the
handler's breach flag is false. -/
theorem get_current_cost_zero_rows (cfg : Config) (clk : Clock)
    (smtp : String × String → Except String Unit)
    (h1 : strTruthy cfg.SUBSCRIPTION_ID = true) (h2 : 0 ≤ cfg.THRESHOLD) :
    get_current_cost cfg true clk (apiWith []) = ⟨0, .str "USD", true⟩
    ∧ (home cfg true clk (apiWith []) smtp).response.threshold_breached
        = false := by
  have hfetch : get_current_cost cfg true clk (apiWith [])
      = ⟨0, .str "USD", true⟩ := by
    simp [get_current_cost, apiWith, h1]
  refine ⟨hfetch, ?_⟩
  show decide ((get_current_cost cfg true clk (apiWith [])).total_cost
      > cfg.THRESHOLD) = false
  rw [hfetch]
  simp only [decide_eq_false_iff_not, not_lt]
  exact h2

/-- Witness for C6 with threshold 5.00 ≥ 0. -/
theorem get_current_cost_zero_rows_witness :
    (strTruthy cfgTest.SUBSCRIPTION_ID = true ∧ 0 ≤ cfgTest.THRESHOLD)
    ∧ (get_current_cost cfgTest true clkTest (apiWith [])
        = ⟨0, .str "USD", true⟩
       ∧ (home cfgTest true clkTest (apiWith [])
            smtpOk).response.threshold_breached = false) :=
  ⟨⟨by decide, by decide⟩,
   get_current_cost_zero_rows cfgTest clkTest smtpOk (by decide) (by decide)⟩

/-- C7 counterexample: at the UTC instant 1970-01-01T00:30:00Z with the
process timezone one hour west of UTC (offset −3600 s), `datetime.now()`
reads the local date 1969-12-31, so the source builds the window
("1969-12-01T00:00:00Z", "1970-01-01T00:00:00Z") while the claimed
UTC-date-based window is ("1970-01-01T00:00:00Z", "1970-01-02T00:00:00Z"). -/
theorem query_time_period_not_utc_counterexample :
    query_time_period ⟨1800, -3600⟩ ≠ claimed_time_period ⟨1800, -3600⟩ := by
  decide

/-- C7 (amended): the query window runs from the first calendar day of the
current month rendered at 00:00:00Z, inclusive, to tomorrow rendered at
00:00:00Z, exclusive, where "today" and "tomorrow" are computed from the
LOCAL wall-clock date at call time (`datetime.now()`); whenever the
process timezone offset is zero this coincides with the UTC-date-based
window the claim describes. -/
theorem query_time_period_local (c : Clock) (h : c.tzOffsetSeconds = 0) :
    query_time_period c = claimed_time_period c := by
  unfold query_time_period claimed_time_period localDate utcDate
  rw [h, add_zero]

/-- Witness for the amended C7 at a clock with zero offset. -/
theorem query_time_period_local_witness :
    (clkTest.tzOffsetSeconds = 0)
    ∧ query_time_period clkTest = claimed_time_period clkTest :=
  ⟨rfl, query_time_period_local clkTest rfl⟩

/-- C8: every response carries `status = "Running"`,
`current_cost_mtd = "<currency> <cost to two decimals>"` and
`scope = "Subscription: <subscription id>"`; in the concrete scenario
threshold 5.00, fetched cost 12.34, currency "USD", email fully
configured and SMTP succeeding, the response has `cost_value = 12.34`,
`threshold_breached = true`, `alert_triggered_now = true` and
`current_cost_mtd = "USD 12.34"`. -/
theorem home_response_fields (cfg : Config) (cc : Bool) (clk : Clock)
    (api : String × String → Except String (List (List PyVal)))
    (smtp : String × String → Except String Unit) :
    (home cfg cc clk api smtp).response.status = "Running"
    ∧ (home cfg cc clk api smtp).response.current_cost_mtd
        = pyStr (get_current_cost cfg cc clk api).currency ++ " "
            ++ format2 (get_current_cost cfg cc clk api).total_cost
    ∧ (home cfg cc clk api smtp).response.scope
        = "Subscription: " ++ pyShow cfg.SUBSCRIPTION_ID
    ∧ (home cfgTest true clkTest (apiWith [[.num q12_34, .str "USD"]])
        smtpOk).response.cost_value = 12.34
    ∧ (home cfgTest true clkTest (apiWith [[.num q12_34, .str "USD"]])
        smtpOk).response.threshold_breached = true
    ∧ (home cfgTest true clkTest (apiWith [[.num q12_34, .str "USD"]])
        smtpOk).response.alert_triggered_now = true
    ∧ (home cfgTest true clkTest (apiWith [[.num q12_34, .str "USD"]])
        smtpOk).response.current_cost_mtd = "USD 12.34" := by
  refine ⟨rfl, rfl, rfl, ?_, by decide, by decide, by decide⟩
  show q12_34 = 12.34
  exact q12_34_eq

/-- C9: on every request, `alert_triggered_now = true` in the response
implies `threshold_breached = true` — a successful alert outcome never
accompanies a non-breaching cost. -/
theorem home_alert_only_if_breached (cfg : Config) (cc : Bool) (clk : Clock)
    (api : String × String → Except String (List (List PyVal)))
    (smtp : String × String → Except String Unit)
    (h : (home cfg cc clk api smtp).response.alert_triggered_now = true) :
    (home cfg cc clk api smtp).response.threshold_breached = true := by
  cases hb : decide ((get_current_cost cfg cc clk api).total_cost
      > cfg.THRESHOLD) with
  | false => simp [home, hb] at h
  | true => exact hb

/-- Witness for C9 at a concrete breaching request (cost 7.00 > 5.00). -/
theorem home_alert_only_if_breached_witness :
    (home cfgTest true clkTest (apiWith [[.num 7, .str "USD"]])
        smtpOk).response.alert_triggered_now = true
    ∧ (home cfgTest true clkTest (apiWith [[.num 7, .str "USD"]])
        smtpOk).response.threshold_breached = true :=
  ⟨by decide,
   home_alert_only_if_breached cfgTest true clkTest
     (apiWith [[.num 7, .str "USD"]]) smtpOk (by decide)⟩

/-- C10: when the billing API returns a non-empty row list whose first row
is empty (falsy), `get_current_cost` does not try to parse the first two
fields of that row and returns `(0.0, "USD")` — the guard requires both
the row list and its first row to be non-empty before parsing. -/
theorem get_current_cost_falsy_first_row (cfg : Config) (clk : Clock)
    (rest : List (List PyVal))
    (h : strTruthy cfg.SUBSCRIPTION_ID = true) :
    get_current_cost cfg true clk (apiWith ([] :: rest))
      = ⟨0, .str "USD", true⟩ := by
  simp [get_current_cost, apiWith, h]

/-- Witness for C10 at a concrete result with one empty row. -/
theorem get_current_cost_falsy_first_row_witness :
    strTruthy cfgTest.SUBSCRIPTION_ID = true
    ∧ get_current_cost cfgTest true clkTest (apiWith [[]])
        = ⟨0, .str "USD", true⟩ :=
  ⟨by decide,
   get_current_cost_falsy_first_row cfgTest clkTest [] (by decide)⟩
